import Mathlib

/-!
Verification of the `AppointmentDetails` component
(src/src/components/AppointmentDetails.tsx) of the
psyche-clinic-scheduler repository.

The component is shallowly embedded as a state machine: the ephemeral
React `useState` fields form a `ComponentState`, each user interaction is
an `Event`, and every call to an external collaborator (the appointment
context, the toast system, `onClose`) is recorded as an `ExtCall` emitted
by the `step` function. Pure derivations (`shouldShowTokenInput`,
`getStatusColor`, `getStatusText`, the payment-method label) are embedded
as Lean functions, string for string.

Abstractions: dates and times are strings exactly as held in React state
(date-fns formatting of a slot date to yyyy-MM-dd is absorbed into
`Slot.date`); the monetary value is an integer since no claim touches its
rendering.
-/

/-- The Appointment entity, mirroring the fields the component reads
(`@/types/appointment`). `patient.name` is flattened to `patientName`. -/
structure Appointment where
  id : String
  patientName : String
  psychologistId : String
  psychologistName : String
  roomName : String
  date : String
  startTime : String
  endTime : String
  paymentMethod : String
  insuranceType : String
  insuranceToken : Option String
  value : Int
  status : String
  deriving Repr, DecidableEq

/-- A slot returned by `findNextAvailableSlot`; its date is already in the
yyyy-MM-dd form the component stores after formatting. -/
structure Slot where
  date : String
  startTime : String
  endTime : String
  deriving Repr, DecidableEq

/-- The session role as seen through `useAuth`: `none` models an
unauthenticated session (`user?.role` is undefined), `some r` a user whose
role string is `r`. -/
abbrev Role := Option String

/-- Source: `const isAdmin = user?.role === "admin"`. -/
def isAdmin (role : Role) : Bool := role == some "admin"

/-- Source: `const isReceptionist = user?.role === "receptionist"`. -/
def isReceptionist (role : Role) : Bool := role == some "receptionist"

/-- Source: `const isPsychologist = user?.role === "psychologist"`. -/
def isPsychologist (role : Role) : Bool := role == some "psychologist"

/-- Source: `const canManage = isAdmin || isReceptionist || isPsychologist`. -/
def canManage (role : Role) : Bool :=
  isAdmin role || isReceptionist role || isPsychologist role

/-- Source: `const canEditToken = isAdmin || isReceptionist || isPsychologist`. -/
def canEditToken (role : Role) : Bool :=
  isAdmin role || isReceptionist role || isPsychologist role

/-- Source: `const shouldShowTokenInput = appointment.paymentMethod ===
"insurance" && (appointment.status === "pending" || appointment.status ===
"confirmed") && canEditToken`. -/
def shouldShowTokenInput (a : Appointment) (role : Role) : Bool :=
  a.paymentMethod == "insurance" &&
    (a.status == "pending" || a.status == "confirmed") &&
    canEditToken role

/-- Source: the `getStatusColor` switch. -/
def getStatusColor (status : String) : String :=
  if status == "confirmed" then "text-green-700 bg-green-100"
  else if status == "pending" then "text-yellow-700 bg-yellow-100"
  else if status == "cancelled" then "text-red-700 bg-red-100"
  else if status == "completed" then "text-blue-700 bg-blue-100"
  else "text-gray-700 bg-gray-100"

/-- Source: the `getStatusText` switch. -/
def getStatusText (status : String) : String :=
  if status == "confirmed" then "Confirmado"
  else if status == "pending" then "Pendente"
  else if status == "cancelled" then "Cancelado"
  else if status == "completed" then "Concluído"
  else status

/-- Source: the payment-method line of the detail panel:
`appointment.paymentMethod === "private" ? "Particular" :
`Convênio (${appointment.insuranceType})``. -/
def paymentMethodLabel (a : Appointment) : String :=
  if a.paymentMethod == "private" then "Particular"
  else "Convênio (" ++ a.insuranceType ++ ")"

/-- The ephemeral `useState` fields of the component, plus the
`appointment` prop it renders (carried here to state frame properties). -/
structure ComponentState where
  appointment : Appointment
  isReschedulingOpen : Bool
  newDate : String
  newStartTime : String
  newEndTime : String
  insuranceToken : String
  deriving Repr, DecidableEq

/-- The `useState` initializers: draft fields start from the appointment
itself, the token draft from `appointment.insuranceToken || ""`. -/
def initState (a : Appointment) : ComponentState :=
  { appointment := a
    isReschedulingOpen := false
    newDate := a.date
    newStartTime := a.startTime
    newEndTime := a.endTime
    insuranceToken := a.insuranceToken.getD "" }

/-- One call to an external collaborator, recorded with its arguments. -/
inductive ExtCall where
  | findNextAvailableSlot (psychologistId : String)
  | updateAppointmentStatus (id status : String)
  | deleteAppointment (id : String)
  | rescheduleAppointment (id date startTime endTime : String)
  | updateAppointment (a : Appointment)
  | toast (title description : String)
  | onClose
  deriving Repr, DecidableEq

/-- Source: `handleStatusChange` calls
`updateAppointmentStatus(appointment.id, status)` and touches no state. -/
def handleStatusChange (s : ComponentState) (status : String) :
    ComponentState × List ExtCall :=
  (s, [ExtCall.updateAppointmentStatus s.appointment.id status])

/-- Source: `handleDelete`; `confirmed` is the result of the blocking
`window.confirm` prompt. On confirmation it deletes and calls `onClose`. -/
def handleDelete (s : ComponentState) (confirmed : Bool) :
    ComponentState × List ExtCall :=
  if confirmed then
    (s, [ExtCall.deleteAppointment s.appointment.id, ExtCall.onClose])
  else (s, [])

/-- Source: `handleOpenReschedule`; `nextSlot` is the value returned by
`findNextAvailableSlot(appointment.psychologistId)`. If a slot is found
the three draft setters run; either way the dialog is opened. -/
def handleOpenReschedule (s : ComponentState) (nextSlot : Option Slot) :
    ComponentState × List ExtCall :=
  let s1 := match nextSlot with
    | some slot =>
        { s with newDate := slot.date, newStartTime := slot.startTime,
                 newEndTime := slot.endTime }
    | none => s
  ({ s1 with isReschedulingOpen := true },
   [ExtCall.findNextAvailableSlot s.appointment.psychologistId])

/-- Source: `handleReschedule` calls `rescheduleAppointment(appointment.id,
newDate, newStartTime, newEndTime)` then closes the dialog. -/
def handleReschedule (s : ComponentState) : ComponentState × List ExtCall :=
  ({ s with isReschedulingOpen := false },
   [ExtCall.rescheduleAppointment s.appointment.id s.newDate s.newStartTime
      s.newEndTime])

/-- Source: `handleSaveToken` builds `{ ...appointment, insuranceToken }`,
sends it to `updateAppointment`, and shows one toast. -/
def handleSaveToken (s : ComponentState) : ComponentState × List ExtCall :=
  (s,
   [ExtCall.updateAppointment
      { s.appointment with insuranceToken := some s.insuranceToken },
    ExtCall.toast "Token salvo" "O token do convênio foi salvo com sucesso."])

/-- The user interactions the component reacts to. -/
inductive Event where
  | openReschedule (nextSlot : Option Slot)
  | editNewDate (v : String)
  | editNewStartTime (v : String)
  | editNewEndTime (v : String)
  | cancelReschedule
  | confirmReschedule
  | editToken (v : String)
  | saveToken
  | statusChange (status : String)
  | deleteConfirm (confirmed : Bool)
  | close
  deriving Repr, DecidableEq

/-- The event-driven step function: each interaction maps to the handler
or inline callback attached to it in the render, yielding the next state
and the external calls made. The dialog Cancelar button and the
`onOpenChange` close path both run `setIsReschedulingOpen(false)` only. -/
def step (s : ComponentState) : Event → ComponentState × List ExtCall
  | Event.openReschedule nextSlot => handleOpenReschedule s nextSlot
  | Event.editNewDate v => ({ s with newDate := v }, [])
  | Event.editNewStartTime v => ({ s with newStartTime := v }, [])
  | Event.editNewEndTime v => ({ s with newEndTime := v }, [])
  | Event.cancelReschedule => ({ s with isReschedulingOpen := false }, [])
  | Event.confirmReschedule => handleReschedule s
  | Event.editToken v => ({ s with insuranceToken := v }, [])
  | Event.saveToken => handleSaveToken s
  | Event.statusChange status => handleStatusChange s status
  | Event.deleteConfirm c => handleDelete s c
  | Event.close => (s, [ExtCall.onClose])

/-- The interactive controls the render can show. -/
inductive Control where
  | detailPanel
  | tokenEditor
  | statusSelector
  | rescheduleButton
  | deleteButton
  | closeButton
  | rescheduleDialog
  deriving Repr, DecidableEq

/-- The render, projected to which controls appear: the detail panel and
the Fechar button always; the token editor iff `shouldShowTokenInput`;
the status selector and the Reagendar and Cancelar Agendamento buttons
iff `canManage`; the dialog iff its open flag is set. -/
def visibleControls (s : ComponentState) (role : Role) : List Control :=
  [Control.detailPanel]
  ++ (if shouldShowTokenInput s.appointment role then [Control.tokenEditor]
      else [])
  ++ (if canManage role then [Control.statusSelector] else [])
  ++ (if canManage role then
        [Control.rescheduleButton, Control.deleteButton] else [])
  ++ [Control.closeButton]
  ++ (if s.isReschedulingOpen then [Control.rescheduleDialog] else [])

/-- The `SelectItem` values offered by the status selector, in render
order. -/
def statusSelectOptions : List String := ["pending", "confirmed", "cancelled"]

/-- The `defaultValue` of the status `Select`. -/
def statusSelectDefault (s : ComponentState) : String := s.appointment.status

/-- A concrete appointment used as a test fixture. -/
def appt0 : Appointment :=
  { id := "a1"
    patientName := "Ana"
    psychologistId := "p1"
    psychologistName := "Dra. Maria"
    roomName := "Sala 1"
    date := "2024-06-01"
    startTime := "09:00"
    endTime := "10:00"
    paymentMethod := "insurance"
    insuranceType := "Unimed"
    insuranceToken := none
    value := 100
    status := "pending" }

/-- A fixture whose payment method is neither private nor insurance. -/
def apptCash : Appointment := { appt0 with paymentMethod := "cash" }

/-- Claim C1: shouldShowTokenInput is true iff the payment method is
insurance, the status is pending or confirmed, and the role is admin,
receptionist or psychologist. -/
theorem shouldShowTokenInput_iff (a : Appointment) (role : Role) :
    shouldShowTokenInput a role = true ↔
      (a.paymentMethod = "insurance" ∧
        (a.status = "pending" ∨ a.status = "confirmed") ∧
        (role = some "admin" ∨ role = some "receptionist" ∨
          role = some "psychologist")) := by
  simp only [shouldShowTokenInput, canEditToken, isAdmin, isReceptionist,
    isPsychologist, Bool.and_eq_true, Bool.or_eq_true, beq_iff_eq]
  tauto

/-- Claim C2 counterexample: open the dialog with no slot, edit the draft
date, cancel, reopen with no slot: the draft date is the edited value, not
the appointment's own date, refuting the claim that on every no-slot open
the draft holds the original appointment's date, start and end. -/
theorem openReschedule_keeps_prior_edits :
    let s1 := (handleOpenReschedule (initState appt0) none).1
    let s2 := (step s1 (Event.editNewDate "2025-01-01")).1
    let s3 := (step s2 Event.cancelReschedule).1
    let s4 := (handleOpenReschedule s3 none).1
    s4.newDate = "2025-01-01" ∧ s4.newDate ≠ appt0.date := by decide

/-- Claim C2 amended: when a slot is found, opening replaces all three
draft fields with the slot values; when none is found, opening leaves the
draft fields unchanged — so they equal the appointment's own date, start
and end on a first open before any edits, but retain prior edits on later
opens. Either way the dialog opens. -/
theorem handleOpenReschedule_spec (s : ComponentState) (a : Appointment)
    (slot : Slot) :
    (handleOpenReschedule s (some slot)).1.newDate = slot.date ∧
    (handleOpenReschedule s (some slot)).1.newStartTime = slot.startTime ∧
    (handleOpenReschedule s (some slot)).1.newEndTime = slot.endTime ∧
    (handleOpenReschedule s (some slot)).1.isReschedulingOpen = true ∧
    (handleOpenReschedule s none).1.newDate = s.newDate ∧
    (handleOpenReschedule s none).1.newStartTime = s.newStartTime ∧
    (handleOpenReschedule s none).1.newEndTime = s.newEndTime ∧
    (handleOpenReschedule s none).1.isReschedulingOpen = true ∧
    (handleOpenReschedule (initState a) none).1.newDate = a.date ∧
    (handleOpenReschedule (initState a) none).1.newStartTime = a.startTime ∧
    (handleOpenReschedule (initState a) none).1.newEndTime = a.endTime :=
  ⟨rfl, rfl, rfl, rfl, rfl, rfl, rfl, rfl, rfl, rfl, rfl⟩

/-- Claim C3 counterexample: edit the draft date while the dialog is open,
then cancel: no external call is made, but the draft still holds the edit,
refuting the claim that cancelling discards the draft. -/
theorem cancel_keeps_draft_edits :
    let s1 := (handleOpenReschedule (initState appt0) none).1
    let s2 := (step s1 (Event.editNewDate "2025-01-01")).1
    (step s2 Event.cancelReschedule).2 = [] ∧
    (step s2 Event.cancelReschedule).1.newDate = "2025-01-01" ∧
    (step s2 Event.cancelReschedule).1.newDate ≠ appt0.date := by decide

/-- Claim C3 amended: cancelling the reschedule dialog invokes no external
operation and only clears the open flag; every draft field keeps the value
it had, including edits made while the dialog was open. -/
theorem cancelReschedule_spec (s : ComponentState) :
    step s Event.cancelReschedule = ({ s with isReschedulingOpen := false }, []) :=
  rfl

/-- Claim C4: saving the token calls updateAppointment with a record equal
to the current appointment in every field except insuranceToken, which
becomes the draft token, and shows the confirmation toast exactly once. -/
theorem handleSaveToken_spec (s : ComponentState) :
    (handleSaveToken s).1 = s ∧
    (handleSaveToken s).2 =
      [ExtCall.updateAppointment
        { s.appointment with insuranceToken := some s.insuranceToken },
       ExtCall.toast "Token salvo"
         "O token do convênio foi salvo com sucesso."] ∧
    ((handleSaveToken s).2.countP (fun c =>
        match c with
        | ExtCall.toast _ _ => true
        | _ => false)) = 1 :=
  ⟨rfl, rfl, rfl⟩

/-- Claim C6: confirming the reschedule calls rescheduleAppointment with
exactly the appointment id and the three current draft values, unmodified
and unvalidated (the statement holds for every draft, including those with
start time at or after end time), and closes the dialog. -/
theorem handleReschedule_spec (s : ComponentState) :
    handleReschedule s =
      ({ s with isReschedulingOpen := false },
       [ExtCall.rescheduleAppointment s.appointment.id s.newDate
          s.newStartTime s.newEndTime]) :=
  rfl

/-- Claim C5 counterexample: the known statuses do not map to the English
labels the claim states; the code labels are Brazilian Portuguese, so
pending maps to "Pendente", not "Pending". -/
theorem statusText_is_portuguese :
    getStatusText "pending" = "Pendente" ∧ getStatusText "pending" ≠ "Pending" := by
  decide

/-- Claim C5 amended: the status badge mapping is total: pending maps to
the yellow classes with label "Pendente", confirmed to green with
"Confirmado", cancelled to red with "Cancelado", completed to blue with
"Concluído", and any other status string to the neutral gray classes with
the raw status echoed verbatim as the label. -/
theorem statusBadge_total (status : String)
    (h : status ≠ "pending" ∧ status ≠ "confirmed" ∧ status ≠ "cancelled" ∧
      status ≠ "completed") :
    getStatusColor "pending" = "text-yellow-700 bg-yellow-100" ∧
    getStatusText "pending" = "Pendente" ∧
    getStatusColor "confirmed" = "text-green-700 bg-green-100" ∧
    getStatusText "confirmed" = "Confirmado" ∧
    getStatusColor "cancelled" = "text-red-700 bg-red-100" ∧
    getStatusText "cancelled" = "Cancelado" ∧
    getStatusColor "completed" = "text-blue-700 bg-blue-100" ∧
    getStatusText "completed" = "Concluído" ∧
    getStatusColor status = "text-gray-700 bg-gray-100" ∧
    getStatusText status = status := by
  obtain ⟨h1, h2, h3, h4⟩ := h
  refine ⟨by decide, by decide, by decide, by decide, by decide, by decide,
    by decide, by decide, ?_, ?_⟩ <;>
    simp [getStatusColor, getStatusText, h1, h2, h3, h4]

/-- Claim C5 witness: the amended mapping evaluated at the unknown status
string "no-show". -/
theorem statusBadge_total_witness :
    getStatusColor "no-show" = "text-gray-700 bg-gray-100" ∧
    getStatusText "no-show" = "no-show" := by
  have h := statusBadge_total "no-show" (by decide)
  exact ⟨h.2.2.2.2.2.2.2.2.1, h.2.2.2.2.2.2.2.2.2⟩

/-- Claim C7: for any session role outside admin, receptionist and
psychologist (including unauthenticated), with the dialog closed, the
render shows only the read-only detail panel and the close button: no
status selector, no reschedule or delete button, no token editor. -/
theorem nonStaff_sees_only_panel_and_close (s : ComponentState) (role : Role)
    (h : role ≠ some "admin" ∧ role ≠ some "receptionist" ∧
      role ≠ some "psychologist")
    (hclosed : s.isReschedulingOpen = false) :
    visibleControls s role = [Control.detailPanel, Control.closeButton] := by
  obtain ⟨h1, h2, h3⟩ := h
  have hcm : canManage role = false := by
    simp [canManage, isAdmin, isReceptionist, isPsychologist, h1, h2, h3]
  have hce : canEditToken role = false := by
    simp [canEditToken, isAdmin, isReceptionist, isPsychologist, h1, h2, h3]
  simp [visibleControls, shouldShowTokenInput, hcm, hce, hclosed]

/-- Claim C7 witness: the unauthenticated session over the fixture state. -/
theorem nonStaff_witness :
    visibleControls (initState appt0) none =
      [Control.detailPanel, Control.closeButton] :=
  nonStaff_sees_only_panel_and_close (initState appt0) none
    (by decide) rfl

/-- Claim C8: whenever the status selector is rendered, its single-choice
options are exactly pending, confirmed and cancelled (completed is never
offered), its default is the appointment's current status, and selecting a
status calls updateAppointmentStatus with the appointment id and that
status, changing no local state. -/
theorem statusSelector_spec (s : ComponentState) (role : Role)
    (status : String)
    (h : Control.statusSelector ∈ visibleControls s role) :
    statusSelectOptions = ["pending", "confirmed", "cancelled"] ∧
    "completed" ∉ statusSelectOptions ∧
    statusSelectDefault s = s.appointment.status ∧
    handleStatusChange s status =
      (s, [ExtCall.updateAppointmentStatus s.appointment.id status]) :=
  ⟨rfl, by decide, rfl, rfl⟩

/-- Claim C8 witness: the selector shown to an admin over the fixture
state, choosing confirmed. -/
theorem statusSelector_witness :
    handleStatusChange (initState appt0) "confirmed" =
      (initState appt0,
       [ExtCall.updateAppointmentStatus appt0.id "confirmed"]) :=
  (statusSelector_spec (initState appt0) (some "admin") "confirmed"
    (by decide)).2.2.2

/-- Claim C9: no event ever changes the appointment the component holds:
every handler leaves the appointment record untouched and expresses
mutation only as emitted external calls. -/
theorem step_never_mutates_appointment (s : ComponentState) (e : Event) :
    (step s e).1.appointment = s.appointment := by
  cases e with
  | openReschedule nextSlot => cases nextSlot <;> rfl
  | editNewDate v => rfl
  | editNewStartTime v => rfl
  | editNewEndTime v => rfl
  | cancelReschedule => rfl
  | confirmReschedule => rfl
  | editToken v => rfl
  | saveToken => rfl
  | statusChange status => rfl
  | deleteConfirm c => cases c <;> rfl
  | close => rfl

/-- Claim C10: for every payment method other than the string private, the
payment label renders as the insurance form, interpolating the insurance
type; the code branches only on equality with private. -/
theorem paymentLabel_nonprivate (a : Appointment)
    (h : a.paymentMethod ≠ "private") :
    paymentMethodLabel a = "Convênio (" ++ a.insuranceType ++ ")" := by
  simp [paymentMethodLabel, h]

/-- Claim C10 witness: the fixture whose payment method is "cash" still
renders the insurance label. -/
theorem paymentLabel_nonprivate_witness :
    paymentMethodLabel apptCash = "Convênio (" ++ apptCash.insuranceType ++ ")" :=
  paymentLabel_nonprivate apptCash (by decide)
